import Mathlib

/-!
Shallow embedding of the task query/filter/search engine of the repository
(`src/backend/src/services/task.service.ts`, its validation schemas in
`src/backend/src/validation/task.validation.ts`, the error translation in
`src/backend/src/utils/database-errors.ts`, and the search controller in
`src/backend/src/controllers/task.controller.ts`).

Conventions of the embedding:
* the Prisma store is a pure value (`Store`): a list of user ids and a list
  of task rows; `findFirst` is `List.find?`, `findMany` is `List.filter`
  followed by an insertion sort for `orderBy` plus `drop`/`take` for
  `skip`/`take`;
* JS `Date` timestamps are `Int` (epoch milliseconds);
* thrown JS errors are modelled by `ThrownError` (plain `Error` carries its
  message; the Prisma client error classes carry what
  `handleDatabaseError` inspects); a `try/catch` block becomes an
  `Except ThrownError` value post-processed by the catch clause;
* mutating operations return the result together with the store after the
  call, so that "the row is still there / removed" is directly statable.
-/

namespace TodoApp

inductive TaskStatus where
  | PENDING
  | IN_PROGRESS
  | COMPLETED
deriving DecidableEq, Repr

inductive TaskPriority where
  | LOW
  | MEDIUM
  | HIGH
deriving DecidableEq, Repr

/-- A task row, as in the Prisma schema (`tasks` table). -/
structure Task where
  id : String
  title : String
  description : Option String
  status : TaskStatus
  priority : TaskPriority
  dueDate : Option Int
  createdAt : Int
  updatedAt : Int
  creatorId : String
  assigneeId : Option String
deriving DecidableEq, Repr

/-- The persistent store: user ids (`users` table) and task rows (`tasks` table). -/
structure Store where
  users : List String
  tasks : List Task
deriving DecidableEq, Repr

/-- JS `String.prototype.trim`: strip leading and trailing whitespace. -/
def jsTrim (s : String) : String :=
  ⟨((s.toList.dropWhile Char.isWhitespace).reverse.dropWhile Char.isWhitespace).reverse⟩

/-- `leadMatch n h` is true when `n` is an initial segment of `h`. -/
def leadMatch : List Char → List Char → Bool
  | [], _ => true
  | _ :: _, [] => false
  | a :: as, b :: bs => a == b && leadMatch as bs

/-- `hasSub n h` is true when `n` occurs contiguously inside `h`. -/
def hasSub (needle : List Char) : List Char → Bool
  | [] => leadMatch needle []
  | c :: cs => leadMatch needle (c :: cs) || hasSub needle cs

/-- Prisma `contains` with `mode: 'insensitive'`: case-insensitive substring test. -/
def strContainsCI (hay needle : String) : Bool :=
  hasSub needle.toLower.toList hay.toLower.toList

/-- Insert into a list sorted by the boolean comparator `le`. -/
def insertSorted (le : α → α → Bool) (a : α) : List α → List α
  | [] => [a]
  | b :: bs => if le a b then a :: b :: bs else b :: insertSorted le a bs

/-- Insertion sort by the boolean comparator `le`; models Prisma `orderBy`. -/
def sortListBy (le : α → α → Bool) : List α → List α
  | [] => []
  | a :: as => insertSorted le a (sortListBy le as)

theorem mem_insertSorted (le : α → α → Bool) (a x : α) (l : List α) :
    x ∈ insertSorted le a l ↔ x = a ∨ x ∈ l := by
  induction l with
  | nil => simp [insertSorted]
  | cons b bs ih =>
    by_cases h : le a b = true
    · simp [insertSorted, h]
    · simp only [insertSorted, if_neg h, List.mem_cons, ih]
      tauto

theorem mem_sortListBy (le : α → α → Bool) (x : α) (l : List α) :
    x ∈ sortListBy le l ↔ x ∈ l := by
  induction l with
  | nil => simp [sortListBy]
  | cons a as ih => simp [sortListBy, mem_insertSorted, ih]

theorem length_insertSorted (le : α → α → Bool) (a : α) (l : List α) :
    (insertSorted le a l).length = l.length + 1 := by
  induction l with
  | nil => simp [insertSorted]
  | cons b bs ih =>
    by_cases h : le a b = true
    · simp [insertSorted, h]
    · simp [insertSorted, h, ih]

theorem length_sortListBy (le : α → α → Bool) (l : List α) :
    (sortListBy le l).length = l.length := by
  induction l with
  | nil => simp [sortListBy]
  | cons a as ih => simp [sortListBy, length_insertSorted, ih]

theorem pairwise_insertSorted (le : α → α → Bool)
    (htot : ∀ x y, le x y = true ∨ le y x = true)
    (htrans : ∀ x y z, le x y = true → le y z = true → le x z = true)
    (a : α) (l : List α) (h : l.Pairwise (fun x y => le x y = true)) :
    (insertSorted le a l).Pairwise (fun x y => le x y = true) := by
  induction l with
  | nil => simp [insertSorted]
  | cons b bs ih =>
    rcases h with - | ⟨hb, hbs⟩
    by_cases hab : le a b = true
    · rw [insertSorted, if_pos hab]
      refine List.Pairwise.cons ?_ (List.Pairwise.cons hb hbs)
      intro y hy
      rcases List.mem_cons.mp hy with rfl | hy
      · exact hab
      · exact htrans a b y hab (hb y hy)
    · have hba : le b a = true := (htot a b).resolve_left hab
      rw [insertSorted, if_neg hab]
      refine List.Pairwise.cons ?_ (ih hbs)
      intro y hy
      rcases (mem_insertSorted le a y bs).mp hy with rfl | hy
      · exact hba
      · exact hb y hy

theorem pairwise_sortListBy (le : α → α → Bool)
    (htot : ∀ x y, le x y = true ∨ le y x = true)
    (htrans : ∀ x y z, le x y = true → le y z = true → le x z = true)
    (l : List α) :
    (sortListBy le l).Pairwise (fun x y => le x y = true) := by
  induction l with
  | nil => simp [sortListBy]
  | cons a as ih => exact pairwise_insertSorted le htot htrans a _ ih

/-! ## Validation schemas (`src/backend/src/validation/task.validation.ts`)

Enum-valued fields (`status`, `priority`, `sortBy`, `sortOrder`) and
ISO-date fields arrive already typed in the embedding, so their Joi `valid`
/ `iso` checks cannot fail here; the string/number constraints are modelled
exactly.  Joi's `.trim()` both converts (the validated value is trimmed)
and is applied before `min`/`max` length checks.  A bare `Joi.string()`
rejects the empty string unless `.allow('')` is present. -/

inductive SortField where
  | createdAt
  | updatedAt
  | dueDate
  | title
  | priority
  | status
deriving DecidableEq, Repr

inductive SortOrder where
  | asc
  | desc
deriving DecidableEq, Repr

/-- Raw list/filter input (`TaskFilterData`); `none` = field absent. -/
structure TaskFilterData where
  status : Option TaskStatus := none
  priority : Option TaskPriority := none
  assigneeId : Option String := none
  creatorId : Option String := none
  dueDateFrom : Option Int := none
  dueDateTo : Option Int := none
  search : Option String := none
  page : Option Nat := none
  limit : Option Nat := none
  sortBy : Option SortField := none
  sortOrder : Option SortOrder := none
deriving DecidableEq, Repr

/-- Validated filter value (`value` after `taskFilterSchema.validate`),
with Joi defaults applied: `page` 1, `limit` 20, `sortBy` `createdAt`,
`sortOrder` `desc`. -/
structure TaskFilterValue where
  status : Option TaskStatus
  priority : Option TaskPriority
  assigneeId : Option String
  creatorId : Option String
  dueDateFrom : Option Int
  dueDateTo : Option Int
  search : Option String
  page : Nat
  limit : Nat
  sortBy : SortField
  sortOrder : SortOrder
deriving DecidableEq, Repr

/-- `taskFilterSchema.validate` (task.validation.ts lines 99-150). -/
def taskFilterSchemaValidate (f : TaskFilterData) : Except String TaskFilterValue :=
  if f.assigneeId = some "" then .error "\x22assigneeId\x22 is not allowed to be empty"
  else if f.creatorId = some "" then .error "\x22creatorId\x22 is not allowed to be empty"
  else
    match f.search with
    | some s =>
      let s := jsTrim s
      if s.length < 2 then .error "Search query must be at least 2 characters long"
      else if 255 < s.length then .error "Search query must be less than 255 characters"
      else validatedFilter f (some s)
    | none => validatedFilter f none
where
  validatedFilter (f : TaskFilterData) (search : Option String) : Except String TaskFilterValue :=
    match f.page with
    | some p =>
      if p < 1 then .error "\x22page\x22 must be greater than or equal to 1"
      else validatedLimit f search p
    | none => validatedLimit f search 1
  validatedLimit (f : TaskFilterData) (search : Option String) (page : Nat) :
      Except String TaskFilterValue :=
    match f.limit with
    | some l =>
      if l < 1 then .error "\x22limit\x22 must be greater than or equal to 1"
      else if 100 < l then .error "\x22limit\x22 must be less than or equal to 100"
      else .ok (mkValue f search page l)
    | none => .ok (mkValue f search page 20)
  mkValue (f : TaskFilterData) (search : Option String) (page limit : Nat) : TaskFilterValue :=
    { status := f.status
      priority := f.priority
      assigneeId := f.assigneeId
      creatorId := f.creatorId
      dueDateFrom := f.dueDateFrom
      dueDateTo := f.dueDateTo
      search := search
      page := page
      limit := limit
      sortBy := f.sortBy.getD .createdAt
      sortOrder := f.sortOrder.getD .desc }

/-! ## Where clause (`getUserTasks`, task.service.ts lines 136-187)

The source builds a mutable `Prisma.TaskWhereInput`: it starts from the
visibility clause `OR: [{creatorId: userId}, {assigneeId: userId}]`, then
conditionally copies each present filter into a top-level field (Prisma
ANDs top-level fields), and, when `search` is present, moves the
visibility clause together with the search clause into
`AND: [visibilityOR, searchOR]` and deletes the top-level `OR`.
`WhereClause` records the resulting object shape field by field;
`matchesWhere` gives it Prisma's matching semantics. -/

structure WhereClause where
  /-- top-level `OR: [{creatorId: u}, {assigneeId: u}]`; holds `u` when present -/
  visOr : Option String
  status : Option TaskStatus
  priority : Option TaskPriority
  assigneeId : Option String
  creatorId : Option String
  /-- `dueDate: { gte: _ }` -/
  dueDateGte : Option Int
  /-- `dueDate: { lte: _ }` -/
  dueDateLte : Option Int
  /-- `AND: [{OR: [{creatorId: u}, {assigneeId: u}]}, {OR: [title contains s, description contains s]}]`;
  holds `(u, s)` when present -/
  andClause : Option (String × String)
deriving DecidableEq, Repr

/-- The where clause `getUserTasks` sends to the store, as a function of the
actor and the validated filters (task.service.ts lines 136-187). -/
def buildWhereClause (userId : String) (v : TaskFilterValue) : WhereClause :=
  { -- line 137-140: initial visibility OR; line 186: deleted when search is set
    visOr := match v.search with
      | some _ => none
      | none => some userId
    -- lines 144-158: each filter copied only when present
    status := v.status
    priority := v.priority
    assigneeId := v.assigneeId
    creatorId := v.creatorId
    -- lines 160-168: due-date range
    dueDateGte := v.dueDateFrom
    dueDateLte := v.dueDateTo
    -- lines 170-184: AND of visibility and search when search is present
    andClause := match v.search with
      | some s => some (userId, s)
      | none => none }

/-- Does a task row satisfy a `WhereClause`?  Prisma semantics: all present
top-level conditions are conjoined; `contains` on a null `description`
does not match; `gte`/`lte` on a null `dueDate` does not match. -/
def matchesWhere (w : WhereClause) (t : Task) : Bool :=
  (match w.visOr with
    | some u => t.creatorId == u || t.assigneeId == some u
    | none => true)
  && (match w.status with
    | some s => t.status == s
    | none => true)
  && (match w.priority with
    | some p => t.priority == p
    | none => true)
  && (match w.assigneeId with
    | some a => t.assigneeId == some a
    | none => true)
  && (match w.creatorId with
    | some c => t.creatorId == c
    | none => true)
  && (match w.dueDateGte with
    | some d => match t.dueDate with
      | some td => d ≤ td
      | none => false
    | none => true)
  && (match w.dueDateLte with
    | some d => match t.dueDate with
      | some td => td ≤ d
      | none => false
    | none => true)
  && (match w.andClause with
    | some (u, s) =>
      (t.creatorId == u || t.assigneeId == some u)
      && (strContainsCI t.title s
          || (match t.description with
            | some d => strContainsCI d s
            | none => false))
    | none => true)

/-! ## Sorting (`getUserTasks` orderBy, task.service.ts lines 193-206) -/

def statusRank : TaskStatus → Nat
  | .PENDING => 0
  | .IN_PROGRESS => 1
  | .COMPLETED => 2

def priorityRank : TaskPriority → Nat
  | .LOW => 0
  | .MEDIUM => 1
  | .HIGH => 2

def charListLe : List Char → List Char → Bool
  | [], _ => true
  | _ :: _, [] => false
  | a :: as, b :: bs => if a = b then charListLe as bs else decide (a < b)

def strLe (a b : String) : Bool := charListLe a.toList b.toList

/-- `none` (SQL null) sorts before any value in ascending order. -/
def optIntLe : Option Int → Option Int → Bool
  | none, _ => true
  | some _, none => false
  | some a, some b => decide (a ≤ b)

def taskFieldLe (sb : SortField) (a b : Task) : Bool :=
  match sb with
  | .createdAt => decide (a.createdAt ≤ b.createdAt)
  | .updatedAt => decide (a.updatedAt ≤ b.updatedAt)
  | .dueDate => optIntLe a.dueDate b.dueDate
  | .title => strLe a.title b.title
  | .priority => decide (priorityRank a.priority ≤ priorityRank b.priority)
  | .status => decide (statusRank a.status ≤ statusRank b.status)

/-- Comparator realising Prisma `orderBy: { sb: so }`. -/
def taskLe (sb : SortField) (so : SortOrder) (a b : Task) : Bool :=
  match so with
  | .asc => taskFieldLe sb a b
  | .desc => taskFieldLe sb b a

/-! ## `getUserTasks` (task.service.ts lines 127-248) -/

/-- Result shape (`TaskListResult`). -/
structure TaskListResult where
  tasks : List Task
  total : Nat
  page : Nat
  limit : Nat
  totalPages : Nat
deriving DecidableEq, Repr

/-- JS `Math.ceil(a / b)` for nonnegative integers. -/
def jsCeilDiv (a b : Nat) : Nat := (a + b - 1) / b

/-- The rows matching the composed where clause, in `orderBy` order: what
the `findMany` of `getUserTasks` ranges over before `skip`/`take`. -/
def listQueryRows (store : Store) (userId : String) (value : TaskFilterValue) : List Task :=
  sortListBy (taskLe value.sortBy value.sortOrder)
    (store.tasks.filter (fun t => matchesWhere (buildWhereClause userId value) t))

/-- `TaskService.getUserTasks`: validate filters, build the where clause,
run the paginated fetch and the count, compute `totalPages`. -/
def getUserTasks (store : Store) (userId : String) (filters : TaskFilterData) :
    Except String TaskListResult :=
  match taskFilterSchemaValidate filters with
  | .error m => .error ("Validation error: " ++ m)
  | .ok value =>
    let skip := (value.page - 1) * value.limit
    let tasks := ((listQueryRows store userId value).drop skip).take value.limit
    let total := (store.tasks.filter
      (fun t => matchesWhere (buildWhereClause userId value) t)).length
    .ok { tasks := tasks
          total := total
          page := value.page
          limit := value.limit
          totalPages := jsCeilDiv total value.limit }

/-- Any task satisfying the where clause built for actor `u` is visible to
`u` (created by or assigned to `u`), whatever the filters. -/
theorem matchesWhere_visible (u : String) (v : TaskFilterValue) (t : Task)
    (h : matchesWhere (buildWhereClause u v) t = true) :
    t.creatorId = u ∨ t.assigneeId = some u := by
  unfold buildWhereClause at h
  cases hs : v.search with
  | none =>
    rw [hs] at h
    simp only [matchesWhere, Bool.and_eq_true, Bool.or_eq_true, beq_iff_eq] at h
    exact h.1.1.1.1.1.1.1
  | some s =>
    rw [hs] at h
    simp only [matchesWhere, Bool.and_eq_true, Bool.or_eq_true, beq_iff_eq] at h
    exact h.2.1

/-- An example task row: created by `u1`, assigned to `u2`. -/
def exTask1 : Task :=
  { id := "t1", title := "Implement Search", description := some "find things"
    status := .PENDING, priority := .MEDIUM, dueDate := none
    createdAt := 0, updatedAt := 0, creatorId := "u1", assigneeId := some "u2" }

/-- An example store with two users and one task. -/
def exStore : Store := { users := ["u1", "u2"], tasks := [exTask1] }

/-- What `getUserTasks exStore "u1" {}` returns. -/
def exListResult : TaskListResult :=
  { tasks := [exTask1], total := 1, page := 1, limit := 20, totalPages := 1 }

/-- C1: for every actor and every combination of filters, `getUserTasks`
returns only tasks whose `creatorId` or `assigneeId` equals the actor; no
filter composition (search, creatorId, ...) can surface a task invisible
to the actor. -/
theorem getUserTasks_visibility (store : Store) (userId : String)
    (filters : TaskFilterData) (r : TaskListResult)
    (h : getUserTasks store userId filters = .ok r) :
    ∀ t ∈ r.tasks, t.creatorId = userId ∨ t.assigneeId = some userId := by
  intro t ht
  unfold getUserTasks at h
  cases hval : taskFilterSchemaValidate filters with
  | error m => rw [hval] at h; exact absurd h (by simp)
  | ok value =>
    rw [hval] at h
    simp only [Except.ok.injEq] at h
    subst h
    have h1 := List.take_subset _ _ ht
    have h2 := List.drop_subset _ _ h1
    unfold listQueryRows at h2
    have h3 := (mem_sortListBy _ t _).mp h2
    have h4 := (List.mem_filter.mp h3).2
    exact matchesWhere_visible userId value t h4

theorem getUserTasks_visibility_witness :
    exTask1.creatorId = "u1" ∨ exTask1.assigneeId = some "u1" :=
  getUserTasks_visibility exStore "u1" {} exListResult rfl exTask1 (by decide)

/-- C6: `getUserTasks` pages with offset `(page-1)*limit`, returns at most
`limit` items, and computes `totalPages = ceil(total/limit)`; an empty
match set yields an empty page and `totalPages = 0` rather than an error
(in particular `ceil(25/10) = 3`, page 2 with limit 10 skips 10, and
`ceil(0/10) = 0`). -/
theorem getUserTasks_pagination (store : Store) (userId : String)
    (filters : TaskFilterData) (value : TaskFilterValue) (r : TaskListResult)
    (hval : taskFilterSchemaValidate filters = .ok value)
    (h : getUserTasks store userId filters = .ok r) :
    r.total = (listQueryRows store userId value).length ∧
    r.tasks = ((listQueryRows store userId value).drop ((r.page - 1) * r.limit)).take r.limit ∧
    r.tasks.length ≤ r.limit ∧
    r.totalPages = jsCeilDiv r.total r.limit ∧
    (r.total = 0 → r.tasks = [] ∧ r.totalPages = 0) ∧
    jsCeilDiv 25 10 = 3 ∧ (2 - 1) * 10 = 10 ∧ jsCeilDiv 0 10 = 0 := by
  unfold getUserTasks at h
  rw [hval] at h
  simp only [Except.ok.injEq] at h
  subst h
  dsimp only
  have hlen : (listQueryRows store userId value).length
      = (store.tasks.filter
        (fun t => matchesWhere (buildWhereClause userId value) t)).length := by
    unfold listQueryRows
    exact length_sortListBy _ _
  refine ⟨hlen.symm, rfl, List.length_take_le _ _, rfl, ?_, by decide, by decide, by decide⟩
  intro h0
  rw [h0] at hlen
  have hnil := List.length_eq_zero.mp hlen
  constructor
  · rw [hnil]; simp
  · rw [h0]
    unfold jsCeilDiv
    rcases Nat.eq_zero_or_pos value.limit with hl | hl
    · rw [hl]
    · exact Nat.div_eq_of_lt (by omega)

/-- The normalized filter value produced by validating the empty filter. -/
def exFilterValue : TaskFilterValue :=
  { status := none, priority := none, assigneeId := none, creatorId := none
    dueDateFrom := none, dueDateTo := none, search := none
    page := 1, limit := 20, sortBy := .createdAt, sortOrder := .desc }

theorem getUserTasks_pagination_witness :
    exListResult.total = (listQueryRows exStore "u1" exFilterValue).length ∧
    exListResult.tasks =
      ((listQueryRows exStore "u1" exFilterValue).drop
        ((exListResult.page - 1) * exListResult.limit)).take exListResult.limit ∧
    exListResult.tasks.length ≤ exListResult.limit ∧
    exListResult.totalPages = jsCeilDiv exListResult.total exListResult.limit ∧
    jsCeilDiv 25 10 = 3 ∧ (2 - 1) * 10 = 10 ∧ jsCeilDiv 0 10 = 0 := by
  have h := getUserTasks_pagination exStore "u1" {} exFilterValue exListResult rfl rfl
  exact ⟨h.1, h.2.1, h.2.2.1, h.2.2.2.1, h.2.2.2.2.2.1, h.2.2.2.2.2.2.1, h.2.2.2.2.2.2.2⟩

/-! ## Error translation (`src/backend/src/utils/database-errors.ts`) -/

/-- Errors a `try` block can throw: the Prisma client error classes
distinguished by `handleDatabaseError`, and plain JS `Error`s carrying
their message. -/
inductive ThrownError where
  | prismaKnown (code : String) (target : Option String)
  | prismaUnknown
  | prismaRustPanic
  | prismaInit
  | prismaValidation
  | jsError (message : String)
deriving DecidableEq, Repr

structure DatabaseError where
  code : String
  message : String
  field : Option String := none
deriving DecidableEq, Repr

/-- `handleDatabaseError` (database-errors.ts lines 9-83). -/
def handleDatabaseError : ThrownError → DatabaseError
  | .prismaKnown c target =>
    if c = "P2002" then
      { code := "UNIQUE_CONSTRAINT_VIOLATION"
        message := "A record with this " ++ target.getD "value" ++ " already exists"
        field := target }
    else if c = "P2025" then
      { code := "RECORD_NOT_FOUND", message := "The requested record was not found" }
    else if c = "P2003" then
      { code := "FOREIGN_KEY_CONSTRAINT_VIOLATION", message := "Referenced record does not exist" }
    else if c = "P2014" then
      { code := "REQUIRED_RELATION_VIOLATION"
        message := "The change would violate a required relation" }
    else
      { code := "DATABASE_ERROR", message := "A database error occurred" }
  | .prismaUnknown =>
    { code := "UNKNOWN_DATABASE_ERROR", message := "An unknown database error occurred" }
  | .prismaRustPanic =>
    { code := "DATABASE_PANIC", message := "Database engine encountered an error" }
  | .prismaInit =>
    { code := "DATABASE_INITIALIZATION_ERROR", message := "Failed to initialize database connection" }
  | .prismaValidation =>
    { code := "VALIDATION_ERROR", message := "Invalid data provided to database" }
  | .jsError _ =>
    { code := "INTERNAL_ERROR", message := "An internal error occurred" }

/-! ## Update patch and its validation (`taskUpdateSchema`) -/

/-- `TaskUpdateData`: a partial patch.  Outer `none` = field absent
(JS `undefined`); for `dueDate` and `assigneeId` the inner `none` is an
explicit JS `null` (Joi `.allow(null)`), a distinct "unset" signal. -/
structure TaskUpdateData where
  title : Option String := none
  description : Option String := none
  status : Option TaskStatus := none
  priority : Option TaskPriority := none
  dueDate : Option (Option Int) := none
  assigneeId : Option (Option String) := none
deriving DecidableEq, Repr

/-- `taskUpdateSchema.validate` (task.validation.ts lines 54-97): every
field optional; `title` trimmed, 1-255 chars; `description` trimmed,
≤2000 chars, may be empty; `assigneeId` may be `null` but, being a bare
`Joi.string()`, not the empty string.  Returns the converted (trimmed)
patch. -/
def taskUpdateSchemaValidate (d : TaskUpdateData) : Except String TaskUpdateData :=
  match d.title with
  | some s =>
    let s := jsTrim s
    if s.length < 1 then .error "Task title cannot be empty"
    else if 255 < s.length then .error "Task title must be less than 255 characters"
    else validatedDescription { d with title := some s }
  | none => validatedDescription d
where
  validatedDescription (d : TaskUpdateData) : Except String TaskUpdateData :=
    match d.description with
    | some s =>
      let s := jsTrim s
      if 2000 < s.length then .error "Task description must be less than 2000 characters"
      else validatedAssignee { d with description := some s }
    | none => validatedAssignee d
  validatedAssignee (d : TaskUpdateData) : Except String TaskUpdateData :=
    match d.assigneeId with
    | some (some a) =>
      if a = "" then .error "\x22assigneeId\x22 is not allowed to be empty"
      else .ok d
    | _ => .ok d

/-- Build and apply the `updatePayload` of `updateTask` (task.service.ts
lines 288-316): copy each field present in the validated patch;
`assigneeId: null` becomes `assignee: { disconnect: true }`, a non-null
`assigneeId` becomes `assignee: { connect: ... }`. -/
def applyUpdatePayload (value : TaskUpdateData) (t : Task) : Task :=
  let t := match value.title with
    | some s => { t with title := s }
    | none => t
  let t := match value.description with
    | some s => { t with description := some s }
    | none => t
  let t := match value.status with
    | some s => { t with status := s }
    | none => t
  let t := match value.priority with
    | some p => { t with priority := p }
    | none => t
  let t := match value.dueDate with
    | some d => { t with dueDate := d }
    | none => t
  let t := match value.assigneeId with
    | some none => { t with assigneeId := none }
    | some (some a) => { t with assigneeId := some a }
    | none => t
  t

/-- Visibility predicate of the read/update/status paths: the row with the
given id created by or assigned to the actor (`prisma.task.findFirst`
with `id` and the `OR` clause). -/
def findFirstVisible (tasks : List Task) (taskId userId : String) : Option Task :=
  tasks.find? (fun t => t.id == taskId && (t.creatorId == userId || t.assigneeId == some userId))

/-- `prisma.task.update({ where: { id }, data })` /
`prisma.task.delete({ where: { id } })` target lookup. -/
def findFirstById (tasks : List Task) (taskId : String) : Option Task :=
  tasks.find? (fun t => t.id == taskId)

/-! ## `updateTask` (task.service.ts lines 250-351) -/

/-- The `try` block of `updateTask` (lines 261-340), on an
already-validated patch: visibility-checked fetch, assignee existence
check when a non-null `assigneeId` is supplied (JS truthiness: `null`
skips the lookup), then the store update.  Returns the outcome and the
store after the block. -/
def updateTaskTry (store : Store) (taskId userId : String) (value : TaskUpdateData) :
    Except ThrownError Task × Store :=
  match findFirstVisible store.tasks taskId userId with
  | none => (.error (.jsError "Task not found or access denied"), store)
  | some _ =>
    match value.assigneeId with
    | some (some aid) =>
      if store.users.contains aid then updateTaskWrite store taskId value
      else (.error (.jsError "Assigned user does not exist"), store)
    | _ => updateTaskWrite store taskId value
where
  updateTaskWrite (store : Store) (taskId : String) (value : TaskUpdateData) :
      Except ThrownError Task × Store :=
    match findFirstById store.tasks taskId with
    | some t0 =>
      (.ok (applyUpdatePayload value t0),
        { store with tasks :=
            store.tasks.map (fun t => if t.id == taskId then applyUpdatePayload value t else t) })
    | none => (.error (.prismaKnown "P2025" none), store)

/-- `TaskService.updateTask`: validate the patch, run the `try` block, and
apply the `catch` clause (lines 341-350), which re-throws the two
service-originated messages and wraps anything else through
`handleDatabaseError`. -/
def updateTask (store : Store) (taskId userId : String) (updateData : TaskUpdateData) :
    Except String Task × Store :=
  match taskUpdateSchemaValidate updateData with
  | .error m => (.error ("Validation error: " ++ m), store)
  | .ok value =>
    match updateTaskTry store taskId userId value with
    | (.ok t, s) => (.ok t, s)
    | (.error e, s) =>
      match e with
      | .jsError m =>
        if m = "Task not found or access denied" ∨ m = "Assigned user does not exist"
        then (.error m, s)
        else (.error (handleDatabaseError e).message, s)
      | _ => (.error (handleDatabaseError e).message, s)

/-! ## `deleteTask` (task.service.ts lines 353-377) -/

/-- The `try` block of `deleteTask` (lines 354-369): creator-only fetch
(`findFirst` with `id` and `creatorId`), then `prisma.task.delete`. -/
def deleteTaskTry (store : Store) (taskId userId : String) :
    Except ThrownError Unit × Store :=
  match store.tasks.find? (fun t => t.id == taskId && t.creatorId == userId) with
  | none => (.error (.jsError "Task not found or access denied"), store)
  | some _ =>
    match findFirstById store.tasks taskId with
    | some _ => (.ok (), { store with tasks := store.tasks.filter (fun t => !(t.id == taskId)) })
    | none => (.error (.prismaKnown "P2025" none), store)

/-- `TaskService.deleteTask`: `try` block plus the `catch` clause (lines
370-376), which re-throws the authorization message and wraps anything
else. -/
def deleteTask (store : Store) (taskId userId : String) : Except String Unit × Store :=
  match deleteTaskTry store taskId userId with
  | (.ok u, s) => (.ok u, s)
  | (.error e, s) =>
    match e with
    | .jsError m =>
      if m = "Task not found or access denied" then (.error m, s)
      else (.error (handleDatabaseError e).message, s)
    | _ => (.error (handleDatabaseError e).message, s)

/-! ## `updateTaskStatus` (task.service.ts lines 379-427) -/

/-- The `try` block of `updateTaskStatus` (lines 384-422):
visibility-checked fetch, then the status write. -/
def updateTaskStatusTry (store : Store) (taskId userId : String) (status : TaskStatus) :
    Except ThrownError Task × Store :=
  match findFirstVisible store.tasks taskId userId with
  | none => (.error (.jsError "Task not found or access denied"), store)
  | some _ =>
    match findFirstById store.tasks taskId with
    | some t0 =>
      (.ok { t0 with status := status },
        { store with tasks :=
            store.tasks.map (fun t => if t.id == taskId then { t with status := status } else t) })
    | none => (.error (.prismaKnown "P2025" none), store)

/-- `TaskService.updateTaskStatus`: `try` block plus the `catch` clause
(lines 423-426).  Unlike `updateTask` and `deleteTask`, this catch does
NOT re-throw the `'Task not found or access denied'` error: every thrown
error, that one included, goes through `handleDatabaseError` and is
replaced by its translated message. -/
def updateTaskStatus (store : Store) (taskId userId : String) (status : TaskStatus) :
    Except String Task × Store :=
  match updateTaskStatusTry store taskId userId status with
  | (.ok t, s) => (.ok t, s)
  | (.error e, s) => (.error (handleDatabaseError e).message, s)

/-! ## `searchTasks` (task.service.ts lines 429-479) and its controller -/

/-- The row predicate of the dedicated search query: visibility AND
(title or description contains the query, case-insensitively). -/
def searchPred (userId searchQuery : String) (t : Task) : Bool :=
  (t.creatorId == userId || t.assigneeId == some userId)
  && (strContainsCI t.title searchQuery
      || (match t.description with
        | some d => strContainsCI d searchQuery
        | none => false))

/-- `TaskService.searchTasks`: returns the result list together with the
number of store queries issued.  An empty-after-trim query short-circuits
to `([], 0)` before the `try` block; otherwise one `findMany` runs,
ordered by `updatedAt desc` and capped at `take: 50`. -/
def searchTasks (store : Store) (userId searchQuery : String) : List Task × Nat :=
  if jsTrim searchQuery = "" then ([], 0)
  else
    ((sortListBy (taskLe .updatedAt .desc)
        (store.tasks.filter (fun t => searchPred userId searchQuery t))).take 50,
      1)

/-- Outcome of the HTTP search controller, abstracted to what it sends. -/
inductive SearchHttpOutcome where
  | ok (tasks : List Task) (query : String) (count : Nat)
  | badRequest (code message : String)
deriving DecidableEq, Repr

/-- The `searchTasks` controller (task.controller.ts lines 390-449) for an
authenticated actor: rejects a missing or empty `q` (JS falsiness) and a
query shorter than 2 characters after trim, both before any service call;
otherwise delegates to the service.  Paired with the number of store
queries issued. -/
def searchTasksController (store : Store) (userId : String) (q : Option String) :
    SearchHttpOutcome × Nat :=
  match q with
  | none => (.badRequest "VALIDATION_ERROR" "Search query is required", 0)
  | some qs =>
    if qs = "" then (.badRequest "VALIDATION_ERROR" "Search query is required", 0)
    else
      let searchQuery := jsTrim qs
      if searchQuery.length < 2 then
        (.badRequest "VALIDATION_ERROR" "Search query must be at least 2 characters long", 0)
      else
        let r := searchTasks store userId searchQuery
        (.ok r.1 searchQuery r.1.length, r.2)

/-- When no stored row with the requested id is visible to the actor, the
visibility-checked fetch comes back empty. -/
theorem findFirstVisible_eq_none (tasks : List Task) (taskId actor : String)
    (hvis : ∀ t ∈ tasks, t.id = taskId → t.creatorId ≠ actor ∧ t.assigneeId ≠ some actor) :
    findFirstVisible tasks taskId actor = none := by
  unfold findFirstVisible
  rw [List.find?_eq_none]
  intro t ht
  simp only [Bool.and_eq_true, Bool.or_eq_true, beq_iff_eq, not_and, not_or]
  intro hid
  exact ⟨(hvis t ht hid).1, (hvis t ht hid).2⟩

/-- When `t` is the unique row with the requested id, the id-only fetch of
`prisma.task.update`/`delete` returns `t`. -/
theorem findFirstById_eq_some (tasks : List Task) (taskId : String) (t : Task)
    (hmem : t ∈ tasks) (hid : t.id = taskId)
    (huni : ∀ t' ∈ tasks, t'.id = taskId → t' = t) :
    findFirstById tasks taskId = some t := by
  unfold findFirstById
  cases hf : tasks.find? (fun x => x.id == taskId) with
  | none =>
    rw [List.find?_eq_none] at hf
    exact absurd (by simp [hid]) (hf t hmem)
  | some y =>
    have hy := List.find?_some hf
    have hym := List.mem_of_find?_eq_some hf
    rw [huni y hym (by simpa using hy)]

/-- When `t` is the unique row with the requested id and is visible to the
actor, the visibility-checked fetch returns `t`. -/
theorem findFirstVisible_eq_some (tasks : List Task) (taskId actor : String) (t : Task)
    (hmem : t ∈ tasks) (hid : t.id = taskId)
    (huni : ∀ t' ∈ tasks, t'.id = taskId → t' = t)
    (hvis : t.creatorId = actor ∨ t.assigneeId = some actor) :
    findFirstVisible tasks taskId actor = some t := by
  unfold findFirstVisible
  cases hf : tasks.find?
      (fun x => x.id == taskId && (x.creatorId == actor || x.assigneeId == some actor)) with
  | none =>
    rw [List.find?_eq_none] at hf
    refine absurd ?_ (hf t hmem)
    simp only [Bool.and_eq_true, Bool.or_eq_true, beq_iff_eq]
    exact ⟨hid, hvis⟩
  | some y =>
    have hy := List.find?_some hf
    have hym := List.mem_of_find?_eq_some hf
    simp only [Bool.and_eq_true, Bool.or_eq_true, beq_iff_eq] at hy
    rw [huni y hym hy.1]

/-- Shared helper: `updateTask` by an actor to whom no row with the
requested id is visible fails with the conflated not-found/denied error
and leaves the store untouched, whatever the (valid) patch. -/
theorem updateTask_of_not_visible (store : Store) (taskId actor : String)
    (patch value : TaskUpdateData)
    (hval : taskUpdateSchemaValidate patch = .ok value)
    (hvis : ∀ t ∈ store.tasks, t.id = taskId → t.creatorId ≠ actor ∧ t.assigneeId ≠ some actor) :
    updateTask store taskId actor patch = (.error "Task not found or access denied", store) := by
  unfold updateTask
  rw [hval]
  unfold updateTaskTry
  rw [findFirstVisible_eq_none store.tasks taskId actor hvis]
  dsimp only
  rw [if_pos (Or.inl rfl)]

/-- C10: in `updateTask` the visibility check runs before the
assignee-existence check: an actor who is neither creator nor assignee of
any row with the requested id always gets `'Task not found or access
denied'`, whatever the valid patch — in particular a patch naming a
nonexistent `assigneeId` never surfaces `'Assigned user does not exist'`
to an unauthorized actor. -/
theorem updateTask_visibility_before_assignee_check (store : Store) (taskId actor : String)
    (patch value : TaskUpdateData)
    (hval : taskUpdateSchemaValidate patch = .ok value)
    (hvis : ∀ t ∈ store.tasks, t.id = taskId → t.creatorId ≠ actor ∧ t.assigneeId ≠ some actor) :
    updateTask store taskId actor patch = (.error "Task not found or access denied", store) :=
  updateTask_of_not_visible store taskId actor patch value hval hvis

theorem updateTask_visibility_before_assignee_check_witness :
    updateTask exStore "t1" "u3" { assigneeId := some (some "ghost") }
      = (.error "Task not found or access denied", exStore) :=
  updateTask_visibility_before_assignee_check exStore "t1" "u3"
    { assigneeId := some (some "ghost") } { assigneeId := some (some "ghost") }
    rfl (by decide)

/-- C3: for every actor and valid patch, `updateTask` on an id that
matches no stored row and `updateTask` on the id of an existing row whose
creator and assignee both differ from the actor produce the same
`'Task not found or access denied'` outcome, with nothing distinguishing
the two cases. -/
theorem updateTask_existence_leak_free (store : Store) (actor missingId hiddenId : String)
    (patch value : TaskUpdateData)
    (hval : taskUpdateSchemaValidate patch = .ok value)
    (hmissing : ∀ t ∈ store.tasks, t.id ≠ missingId)
    (_hexists : ∃ t ∈ store.tasks, t.id = hiddenId)
    (hhidden : ∀ t ∈ store.tasks, t.id = hiddenId →
      t.creatorId ≠ actor ∧ t.assigneeId ≠ some actor) :
    updateTask store missingId actor patch = (.error "Task not found or access denied", store) ∧
    updateTask store hiddenId actor patch = (.error "Task not found or access denied", store) ∧
    updateTask store missingId actor patch = updateTask store hiddenId actor patch := by
  have h1 := updateTask_of_not_visible store missingId actor patch value hval
    (fun t ht hid => absurd hid (hmissing t ht))
  have h2 := updateTask_of_not_visible store hiddenId actor patch value hval hhidden
  exact ⟨h1, h2, h1.trans h2.symm⟩

theorem updateTask_existence_leak_free_witness :
    updateTask exStore "missing" "u3" {} = (.error "Task not found or access denied", exStore) ∧
    updateTask exStore "t1" "u3" {} = (.error "Task not found or access denied", exStore) ∧
    updateTask exStore "missing" "u3" {} = updateTask exStore "t1" "u3" {} :=
  updateTask_existence_leak_free exStore "u3" "missing" "t1" {} {} rfl
    (by decide) ⟨exTask1, by decide⟩ (by decide)

/-- C5: on a visible task, a patch with `assigneeId` explicitly `null`
clears the assignment, while a patch without the `assigneeId` field
leaves the task (and the store) unchanged; the two patch shapes are
distinct values of the patch representation. -/
theorem updateTask_assignee_clear_vs_absent (store : Store) (t : Task) (taskId actor : String)
    (hmem : t ∈ store.tasks) (hid : t.id = taskId)
    (huni : ∀ t' ∈ store.tasks, t'.id = taskId → t' = t)
    (hvis : t.creatorId = actor ∨ t.assigneeId = some actor) :
    (updateTask store taskId actor { assigneeId := some none }).1
      = .ok { t with assigneeId := none } ∧
    (∀ t' ∈ (updateTask store taskId actor { assigneeId := some none }).2.tasks,
      t'.id = taskId → t'.assigneeId = none) ∧
    (updateTask store taskId actor {}).1 = .ok t ∧
    (updateTask store taskId actor {}).2 = store ∧
    (some (none : Option String) : Option (Option String)) ≠ none := by
  have hvisf := findFirstVisible_eq_some store.tasks taskId actor t hmem hid huni hvis
  have hbyid := findFirstById_eq_some store.tasks taskId t hmem hid huni
  have hclear :
      updateTask store taskId actor { assigneeId := some none }
        = (.ok { t with assigneeId := none },
          { store with tasks :=
              store.tasks.map (fun x =>
                if x.id == taskId
                then applyUpdatePayload { assigneeId := some none } x else x) }) := by
    unfold updateTask
    rw [show taskUpdateSchemaValidate { assigneeId := some none }
      = .ok { assigneeId := some none } from rfl]
    unfold updateTaskTry
    rw [hvisf]
    dsimp only
    unfold updateTaskTry.updateTaskWrite
    rw [hbyid]
    rfl
  have habsent :
      updateTask store taskId actor {}
        = (.ok t,
          { store with tasks :=
              store.tasks.map (fun x =>
                if x.id == taskId then applyUpdatePayload {} x else x) }) := by
    unfold updateTask
    rw [show taskUpdateSchemaValidate {} = .ok {} from rfl]
    unfold updateTaskTry
    rw [hvisf]
    dsimp only
    unfold updateTaskTry.updateTaskWrite
    rw [hbyid]
    rfl
  refine ⟨by rw [hclear], ?_, by rw [habsent], ?_, by decide⟩
  · rw [hclear]
    intro t' ht' hid'
    rcases List.mem_map.mp ht' with ⟨x, hx, hfx⟩
    by_cases hxid : (x.id == taskId) = true
    · rw [if_pos hxid] at hfx
      rw [← hfx]
      rfl
    · rw [if_neg hxid] at hfx
      rw [← hfx] at hid'
      exact absurd (beq_iff_eq.mpr hid') hxid
  · rw [habsent]
    have hfix : ∀ x : Task, (if x.id == taskId then applyUpdatePayload {} x else x) = x := by
      intro x
      split
      · rfl
      · rfl
    simp only [hfix, List.map_id']

theorem updateTask_assignee_clear_vs_absent_witness :
    (updateTask exStore "t1" "u1" { assigneeId := some none }).1
      = .ok { exTask1 with assigneeId := none } ∧
    (updateTask exStore "t1" "u1" {}).1 = .ok exTask1 ∧
    (updateTask exStore "t1" "u1" {}).2 = exStore := by
  have h := updateTask_assignee_clear_vs_absent exStore exTask1 "t1" "u1"
    (by decide) rfl (by decide) (Or.inl rfl)
  exact ⟨h.1, h.2.2.1, h.2.2.2.1⟩

/-- C4: on a task whose creator and assignee differ, `deleteTask` by the
assignee fails with `'Task not found or access denied'` and leaves the
store untouched, while `deleteTask` by the creator succeeds and removes
every row with that id from the store. -/
theorem deleteTask_authorization_asymmetry (store : Store) (t : Task) (taskId : String)
    (hmem : t ∈ store.tasks) (hid : t.id = taskId)
    (huni : ∀ t' ∈ store.tasks, t'.id = taskId → t' = t)
    (a c : String) (hc : t.creatorId = c) (_ha : t.assigneeId = some a) (hne : a ≠ c) :
    deleteTask store taskId a = (.error "Task not found or access denied", store) ∧
    (deleteTask store taskId c).1 = .ok () ∧
    (∀ t' ∈ (deleteTask store taskId c).2.tasks, t'.id ≠ taskId) := by
  have hfindA : store.tasks.find? (fun x => x.id == taskId && x.creatorId == a) = none := by
    rw [List.find?_eq_none]
    intro x hx
    simp only [Bool.and_eq_true, beq_iff_eq, not_and]
    intro hxid
    rw [huni x hx hxid, hc]
    exact fun h => hne h.symm
  have hfindC : store.tasks.find? (fun x => x.id == taskId && x.creatorId == c) = some t := by
    cases hf : store.tasks.find? (fun x => x.id == taskId && x.creatorId == c) with
    | none =>
      rw [List.find?_eq_none] at hf
      refine absurd ?_ (hf t hmem)
      simp only [Bool.and_eq_true, beq_iff_eq]
      exact ⟨hid, hc⟩
    | some y =>
      have hy := List.find?_some hf
      have hym := List.mem_of_find?_eq_some hf
      simp only [Bool.and_eq_true, beq_iff_eq] at hy
      rw [huni y hym hy.1]
  have hbyid := findFirstById_eq_some store.tasks taskId t hmem hid huni
  refine ⟨?_, ?_, ?_⟩
  · unfold deleteTask deleteTaskTry
    rw [hfindA]
    dsimp only
    rw [if_pos rfl]
  · unfold deleteTask deleteTaskTry
    rw [hfindC, hbyid]
  · unfold deleteTask deleteTaskTry
    rw [hfindC, hbyid]
    dsimp only
    intro t' ht' hid'
    have := (List.mem_filter.mp ht').2
    rw [hid'] at this
    simp at this

theorem deleteTask_authorization_asymmetry_witness :
    deleteTask exStore "t1" "u2" = (.error "Task not found or access denied", exStore) ∧
    (deleteTask exStore "t1" "u1").1 = .ok () := by
  have h := deleteTask_authorization_asymmetry exStore exTask1 "t1" (by decide) rfl (by decide)
    "u2" "u1" rfl rfl (by decide)
  exact ⟨h.1, h.2.1⟩

/-- C2 fails on the code: the `catch` of `updateTaskStatus` (task.service.ts
lines 423-426), unlike those of `updateTask` and `deleteTask`, does not
re-throw `'Task not found or access denied'`; the authorization failure is
re-wrapped by `handleDatabaseError` into the generic
`'An internal error occurred'` before reaching the boundary.  Evaluation
at a failing input: actor `u3` is neither creator nor assignee of `t1`,
`updateTask` propagates the error unmodified, `updateTaskStatus` does
not. -/
theorem updateTaskStatus_rewraps_auth_error :
    updateTaskStatus exStore "t1" "u3" .IN_PROGRESS
      = (.error "An internal error occurred", exStore) ∧
    updateTask exStore "t1" "u3" {} = (.error "Task not found or access denied", exStore) ∧
    ("An internal error occurred" : String) ≠ "Task not found or access denied" := by
  refine ⟨rfl, rfl, by decide⟩

/-- C7: a search query that is empty after trimming returns an empty
sequence with zero store queries issued. -/
theorem searchTasks_short_circuit (store : Store) (userId q : String)
    (h : jsTrim q = "") :
    searchTasks store userId q = ([], 0) := by
  unfold searchTasks
  rw [if_pos h]

theorem searchTasks_short_circuit_witness :
    searchTasks exStore "u1" "" = ([], 0) ∧ searchTasks exStore "u1" "   " = ([], 0) :=
  ⟨searchTasks_short_circuit exStore "u1" "" (by decide),
    searchTasks_short_circuit exStore "u1" "   " (by decide)⟩

/-- C8: the dedicated search returns at most 50 tasks whatever the store
contains, ordered by `updatedAt` descending; its signature takes no
caller-supplied limit, so the cap is not configurable. -/
theorem searchTasks_cap_and_order (store : Store) (userId q : String) :
    (searchTasks store userId q).1.length ≤ 50 ∧
    (searchTasks store userId q).1.Pairwise (fun a b => b.updatedAt ≤ a.updatedAt) := by
  unfold searchTasks
  by_cases h : jsTrim q = ""
  · rw [if_pos h]
    exact ⟨by simp, by simp⟩
  · rw [if_neg h]
    dsimp only
    constructor
    · exact List.length_take_le _ _
    · have hp := pairwise_sortListBy (taskLe .updatedAt .desc)
        (by intro x y; simp only [taskLe, taskFieldLe, decide_eq_true_eq]; omega)
        (by intro x y z; simp only [taskLe, taskFieldLe, decide_eq_true_eq]; omega)
        (store.tasks.filter (fun t => searchPred userId q t))
      have hsub := List.Pairwise.sublist (List.take_sublist 50 _) hp
      refine hsub.imp ?_
      intro x y hxy
      simpa [taskLe, taskFieldLe] using hxy

/-- C9: the service enforces no minimum query length beyond
non-emptiness after trim: any query with a non-whitespace character
(a single `"a"` included) issues the store query and every returned task
satisfies the search predicate; the 2-character minimum lives only in the
HTTP controller, which rejects such queries before any service call. -/
theorem searchTasks_no_service_min_length (store : Store) (userId q qs : String)
    (h : jsTrim q ≠ "") (hqs : qs ≠ "") (h2 : (jsTrim qs).length < 2) :
    (searchTasks store userId q).2 = 1 ∧
    (∀ t ∈ (searchTasks store userId q).1, searchPred userId q t = true) ∧
    searchTasksController store userId (some qs)
      = (.badRequest "VALIDATION_ERROR" "Search query must be at least 2 characters long", 0) := by
  refine ⟨?_, ?_, ?_⟩
  · unfold searchTasks
    rw [if_neg h]
  · unfold searchTasks
    rw [if_neg h]
    dsimp only
    intro t ht
    have h1 := List.take_subset _ _ ht
    have h3 := (mem_sortListBy _ t _).mp h1
    exact (List.mem_filter.mp h3).2
  · unfold searchTasksController
    dsimp only
    rw [if_neg hqs, if_pos h2]

theorem searchTasks_no_service_min_length_witness :
    (searchTasks exStore "u1" "a").2 = 1 ∧
    searchTasksController exStore "u1" (some "a")
      = (.badRequest "VALIDATION_ERROR" "Search query must be at least 2 characters long", 0) := by
  have h := searchTasks_no_service_min_length exStore "u1" "a" "a"
    (by decide) (by decide) (by decide)
  exact ⟨h.1, h.2.2⟩

end TodoApp
